import Mathlib

/-!
Shallow embedding of `sparse_dot_mkl/sparse_dot.py` (the sparse_dot
repository): a ctypes bridge from scipy sparse matrices to the MKL sparse
BLAS.  Host matrices are modelled by their observable attributes (format,
shape, and the dtype and length of the `data`, `indices` and `indptr`
arrays); vendor (MKL) calls are modelled by an oracle supplying the integer
status each call returns and, for export calls, the data the vendor reports.
Python exceptions are modelled by an explicit error type, and in-place
mutation of the caller's matrices by state passing: each routine returns the
final state of the matrices it touched alongside its result.  Every vendor
call made during a run is recorded in an event trace.
-/

/-- Numpy dtypes that matter to this code: the two supported floats, the two
index integer widths, and a stand-in for any other dtype. -/
inductive Dtype
  | float32
  | float64
  | int32
  | int64
  | float16
  deriving DecidableEq, Repr

/-- String form of a dtype, as numpy prints it inside error messages. -/
def Dtype.str : Dtype → String
  | .float32 => "float32"
  | .float64 => "float64"
  | .int32 => "int32"
  | .int64 => "int64"
  | .float16 => "float16"

/-- Sparse storage formats distinguished by `isspmatrix_csr` / `_csc`. -/
inductive SpFormat
  | csr
  | csc
  | coo
  deriving DecidableEq, Repr

/-- A numpy array as this code observes it: its dtype and its length.
`astype` produces an array with a new dtype and the same length. -/
structure NpArr where
  dtype : Dtype
  len : Nat
  deriving DecidableEq, Repr

/-- A scipy sparse matrix as this code observes it: format tag, shape, and
the three attribute arrays `data`, `indices`, `indptr`. -/
structure SpMatrix where
  format : SpFormat
  rows : Nat
  cols : Nat
  data : NpArr
  indices : NpArr
  indptr : NpArr
  deriving DecidableEq, Repr

/-- `matrix.dtype` in scipy is the dtype of the `data` array. -/
def SpMatrix.dtype (m : SpMatrix) : Dtype := m.data.dtype

/-- Shape printed as a Python tuple, as in the alignment error message. -/
def SpMatrix.shapeStr (m : SpMatrix) : String :=
  "(" ++ toString m.rows ++ ", " ++ toString m.cols ++ ")"

/-- Python exceptions this module can raise. -/
inductive PyErr
  | valueError (msg : String)
  | assertionError
  | keyError
  | importError (msg : String)
  deriving DecidableEq, Repr

/-- The three native handles a `dot_product_mkl` run can create. -/
inductive Handle
  | a
  | b
  | c
  deriving DecidableEq, Repr

/-- Vendor-call events recorded in a run's trace. -/
inductive Ev
  | create (h : Handle)
  | order (h : Handle)
  | spmm
  | exportH (h : Handle)
  | destroy (h : Handle)
  deriving DecidableEq, Repr

/-- The `RETURN_CODES` dict of `sparse_dot.py`, lines 141-147: a partial map
from vendor status codes to category names (missing keys raise `KeyError`
when looked up). -/
def RETURN_CODES : Nat → Option String
  | 0 => some "SPARSE_STATUS_SUCCESS"
  | 1 => some "SPARSE_STATUS_NOT_INITIALIZED"
  | 2 => some "SPARSE_STATUS_ALLOC_FAILED"
  | 3 => some "SPARSE_STATUS_INVALID_VALUE"
  | 4 => some "SPARSE_STATUS_EXECUTION_FAILED"
  | 5 => some "SPARSE_STATUS_INTERNAL_ERROR"
  | 6 => some "SPARSE_STATUS_NOT_SUPPORTED"
  | _ => none

/-- The message `"{fn} returned {v} ({e})"` that the status-checking wrappers
format on a nonzero status, with the category looked up in `RETURN_CODES`. -/
def vendorMsg (fn : String) (s : Nat) : String :=
  fn ++ " returned " ++ toString s ++ " (" ++ (RETURN_CODES s).getD "" ++ ")"

/-- Shared shape of the status checks in `_pass_mkl_handle`, `_export_mkl`,
`_matmul_mkl`, `_destroy_mkl_handle` and `_order_mkl_handle`: zero is
success; a nonzero status raises `ValueError` with the entry-point name and
the category, the dict lookup itself raising `KeyError` for a status outside
the table. -/
def statusCheck (fn : String) (s : Nat) : Except PyErr Unit :=
  if s ≠ 0 then
    match RETURN_CODES s with
    | none => .error PyErr.keyError
    | some e => .error (.valueError (fn ++ " returned " ++ toString s ++ " (" ++ e ++ ")"))
  else .ok ()

/-- Substring test used in theorem statements only: does `s` contain `pat`. -/
def strContains (s pat : String) : Bool := decide (pat.data <:+: s.data)

/-- Python's `str.lower()` on the ASCII strings this module passes around. -/
def pyLower (s : String) : String := ⟨s.data.map Char.toLower⟩

instance instDecEqExcept {ε α : Type} [DecidableEq ε] [DecidableEq α] :
    DecidableEq (Except ε α) := fun x y =>
  match x, y with
  | .ok a, .ok b => if h : a = b then .isTrue (by simp [h]) else .isFalse (by simp [h])
  | .error a, .error b => if h : a = b then .isTrue (by simp [h]) else .isFalse (by simp [h])
  | .ok _, .error _ => .isFalse (by simp)
  | .error _, .ok _ => .isFalse (by simp)

/-- The vendor create entry point chosen by `_create_mkl_sparse` from the
precision flag and the matrix format (lines 196 and 201). -/
def createFnName (dp : Bool) (fmt : SpFormat) : String :=
  match fmt, dp with
  | .csr, true => "mkl_sparse_d_create_csr"
  | .csr, false => "mkl_sparse_s_create_csr"
  | .csc, true => "mkl_sparse_d_create_csc"
  | .csc, false => "mkl_sparse_s_create_csc"
  | _, _ => ""

/-- The `_pass_mkl_handle` return check (lines 230-233): the vendor create
call has been made with status `s`; nonzero raises `ValueError` naming the
entry point and category. -/
def _pass_mkl_handle (fn : String) (s : Nat) : Except PyErr Unit :=
  statusCheck fn s

/-- The `_check_scipy_index_typing` routine (lines 150-162): re-types the
`indptr` and `indices` arrays in place to the discovered MKL integer dtype
whenever their dtype differs from it. -/
def _check_scipy_index_typing (m : SpMatrix) (mkl_int_numpy : Dtype) : SpMatrix :=
  let m1 := if m.indptr.dtype ≠ mkl_int_numpy then
      { m with indptr := ⟨mkl_int_numpy, m.indptr.len⟩ } else m
  if m1.indices.dtype ≠ mkl_int_numpy then
    { m1 with indices := ⟨mkl_int_numpy, m1.indices.len⟩ } else m1

/-- Result of `_create_mkl_sparse`: the matrix's final (possibly mutated)
state, the vendor events emitted, and either an error or the
double-precision flag for the created handle. -/
structure CreateOut where
  mat : SpMatrix
  tr : List Ev
  res : Except PyErr Bool
  deriving DecidableEq, Repr

/-- Lines 190-204 of `_create_mkl_sparse`, after the dtype dispatch has
fixed the precision flag `dp` and possibly cast `data`: index re-typing,
the `data`/`indices` length assert, then per format the `indptr` length
assert and the precision- and format-appropriate vendor create call through
`_pass_mkl_handle` (or a `ValueError` for a format that is neither CSR nor
CSC). -/
def createBody (h : Handle) (m1 : SpMatrix) (dp : Bool)
    (mkl_int_numpy : Dtype) (status : Nat) : CreateOut :=
  let m2 := _check_scipy_index_typing m1 mkl_int_numpy
  if m2.data.len ≠ m2.indices.len then ⟨m2, [], .error .assertionError⟩
  else if m2.format = SpFormat.csr then
    if m2.indptr.len ≠ m2.rows + 1 then ⟨m2, [], .error .assertionError⟩
    else ⟨m2, [Ev.create h],
          (_pass_mkl_handle (createFnName dp SpFormat.csr) status).map (fun _ => dp)⟩
  else if m2.format = SpFormat.csc then
    if m2.indptr.len ≠ m2.cols + 1 then ⟨m2, [], .error .assertionError⟩
    else ⟨m2, [Ev.create h],
          (_pass_mkl_handle (createFnName dp SpFormat.csc) status).map (fun _ => dp)⟩
  else ⟨m2, [], .error (.valueError "Matrix is not CSC or CSR")⟩

/-- The `_create_mkl_sparse` routine (lines 165-204): the dtype dispatch of
lines 180-188 (float32 keeps single precision, float64 double, any other
dtype is cast in place to float64 when `cast` is set and rejected
otherwise), then the body of lines 190-204.  `h` names the handle for the
trace; `status` is the status the vendor create call would return. -/
def _create_mkl_sparse (h : Handle) (m0 : SpMatrix) (cast : Bool)
    (mkl_int_numpy : Dtype) (status : Nat) : CreateOut :=
  if m0.dtype = Dtype.float32 then createBody h m0 false mkl_int_numpy status
  else if m0.dtype = Dtype.float64 then createBody h m0 true mkl_int_numpy status
  else if cast then
    createBody h { m0 with data := ⟨Dtype.float64, m0.data.len⟩ } true mkl_int_numpy status
  else ⟨m0, [], .error (.valueError "Only float32 or float64 dtypes are supported")⟩

/-- What the vendor reports to one `_export_mkl` call: the call's status,
the ordering flag, the output dimensions, and the begin/end pointer arrays
(each read with `index_dim` entries from vendor memory). -/
structure ExportData where
  status : Nat
  ordering : Int
  nrows : Nat
  ncols : Nat
  indptrb : List Int
  indptren : List Int
  deriving DecidableEq, Repr

/-- A scipy sparse matrix as constructed by this code for its caller:
format, shape, dtype and number of stored values. -/
structure SciMat where
  format : SpFormat
  rows : Nat
  cols : Nat
  dtype : Dtype
  nnz : Nat
  deriving DecidableEq, Repr

/-- The vendor export entry point chosen by `_export_mkl` from the precision
flag and output type (lines 270-275). -/
def exportFnName (dp : Bool) (ot : String) : String :=
  if ot = "csr" then
    if dp then "mkl_sparse_d_export_csr" else "mkl_sparse_s_export_csr"
  else
    if dp then "mkl_sparse_d_export_csc" else "mkl_sparse_s_export_csc"

/-- Result of `_export_mkl`: vendor events emitted and the outcome. -/
structure ExportOut where
  tr : List Ev
  res : Except PyErr SciMat
  deriving DecidableEq, Repr

/-- The `_export_mkl` routine (lines 238-334): validates the output type,
makes the vendor export call, checks its status, rejects 1-based ordering,
short-circuits to an empty matrix when a reported dimension is zero,
computes nnz as `indptren[-1] - indptrb[0]` (after prepending `indptrb[0]`
to `indptren`), returns an empty matrix when nnz is zero, rejects nnz
outside `[0, ncols*nrows]`, and otherwise packs the exported arrays into a
matrix of the reported shape. -/
def _export_mkl (h : Handle) (ed : ExportData) (double_precision : Bool)
    (output_type0 : String) (copy : Bool) : ExportOut :=
  let output_type := pyLower output_type0
  if output_type ≠ "csr" ∧ output_type ≠ "csc" then
    ⟨[], .error (.valueError "Only CSR and CSC output types are supported")⟩
  else
    let fmt : SpFormat := if output_type = "csr" then .csr else .csc
    let final_dtype : Dtype := if double_precision then .float64 else .float32
    let fn := exportFnName double_precision output_type
    match statusCheck fn ed.status with
    | .error e => ⟨[Ev.exportH h], .error e⟩
    | .ok _ =>
      if ed.ordering ≠ 0 then
        ⟨[Ev.exportH h], .error (.valueError "1-indexing (F-style) is not supported")⟩
      else if ed.nrows = 0 ∨ ed.ncols = 0 then
        ⟨[Ev.exportH h], .ok ⟨fmt, ed.nrows, ed.ncols, final_dtype, 0⟩⟩
      else
        let b0 : Int := ed.indptrb.headD 0
        let nnz : Int := ed.indptren.getLastD b0 - b0
        if nnz = 0 then
          ⟨[Ev.exportH h], .ok ⟨fmt, ed.nrows, ed.ncols, final_dtype, 0⟩⟩
        else if nnz < 0 ∨ (ed.ncols * ed.nrows : Int) < nnz then
          ⟨[Ev.exportH h], .error (.valueError
            ("Matrix (" ++ toString ed.nrows ++ " x " ++ toString ed.ncols ++
             ") is attempting to index " ++ toString nnz ++ " elements"))⟩
        else
          ⟨[Ev.exportH h], .ok ⟨fmt, ed.nrows, ed.ncols, final_dtype, nnz.toNat⟩⟩

/-- The `_matmul_mkl` routine (lines 337-362): the spmm call has been made
with status `status`; nonzero raises with the entry-point name and category,
then the data/indices length asserts on both operand matrices run. -/
def _matmul_mkl (status : Nat) (mat_ref_a mat_ref_b : SpMatrix) : Except PyErr Unit :=
  match statusCheck "mkl_sparse_spmm" status with
  | .error e => .error e
  | .ok _ =>
    if mat_ref_a.data.len ≠ mat_ref_a.indices.len then .error .assertionError
    else if mat_ref_b.data.len ≠ mat_ref_b.indices.len then .error .assertionError
    else .ok ()

/-- The `_destroy_mkl_handle` routine (lines 365-377). -/
def _destroy_mkl_handle (status : Nat) : Except PyErr Unit :=
  statusCheck "mkl_sparse_destroy" status

/-- The `_order_mkl_handle` routine (lines 380-392). -/
def _order_mkl_handle (status : Nat) : Except PyErr Unit :=
  statusCheck "mkl_sparse_order" status

/-- The `_convert_to_csr` routine (lines 395-410): on a nonzero conversion
status it destroys the (new) handle and raises a generic `ValueError`
carrying neither the entry-point name nor a status category; the inner
destroy call can itself raise first. -/
def _convert_to_csr (convStatus destroyStatus : Nat) : Except PyErr Unit :=
  if convStatus ≠ 0 then
    match _destroy_mkl_handle destroyStatus with
    | .error e => .error e
    | .ok _ => .error (.valueError "CSC to CSR Conversion failed")
  else .ok ()

/-- The discovered MKL integer width. -/
inductive MklIntWidth
  | i64
  | i32
  deriving DecidableEq, Repr

/-- Exceptions caught by the `except (AssertionError, ValueError)` clauses of
the module-load block (lines 438 and 444). -/
def catchable : PyErr → Bool
  | .valueError _ => true
  | .assertionError => true
  | _ => false

/-- The module-load integer-width discovery block (lines 430-445).
`current` is the value of `MKL.MKL_INT` before the block (the `is None`
guard); `r64` and `r32` are the outcomes of `_validate_dtype` under the
64-bit and 32-bit bindings (`none` = no exception).  Returns the resulting
width, or the exception the block raises (an `ImportError` when both trials
fail with a caught exception). -/
def moduleIntTypeDiscovery (current : Option MklIntWidth) (r64 r32 : Option PyErr) :
    Except PyErr (Option MklIntWidth) :=
  if current.isSome then .ok current
  else
    match r64 with
    | none => .ok (some MklIntWidth.i64)
    | some e =>
      if catchable e then
        match r32 with
        | none => .ok (some MklIntWidth.i32)
        | some e2 =>
          if catchable e2 then .error (.importError "Unable to set MKL numeric types")
          else .error e2
      else .error e

/-- Statuses and export data the vendor would supply to the calls one
`dot_product_mkl` run can make, in call order. -/
structure MklOracle where
  createA : Nat
  createB : Nat
  orderA : Nat
  orderB : Nat
  exportA : ExportData
  exportB : ExportData
  spmm : Nat
  orderC : Nat
  exportC : ExportData
  destroyC : Nat
  deriving DecidableEq, Repr

/-- Outcome of a `dot_product_mkl` run: the returned matrix or raised
exception, the final states of the two caller-supplied matrices, and the
trace of vendor calls made. -/
structure DotResult where
  res : Except PyErr SciMat
  finalA : SpMatrix
  finalB : SpMatrix
  trace : List Ev
  deriving DecidableEq, Repr

/-- The debug block of lines 542-557: when `debug` is set, export both
operand handles (zero-copy, CSR since both operands are CSR here) and assert
that the exported shapes match the operand shapes; the prints themselves are
observational.  Returns the vendor events made and the outcome. -/
def dot_debug_block (debug a_dbl b_dbl : Bool) (oA oB : ExportData)
    (aMat bMat : SpMatrix) : List Ev × Except PyErr Unit :=
  if debug then
    let ea := _export_mkl Handle.a oA a_dbl "csr" false
    match ea.res with
    | .error e => (ea.tr, .error e)
    | .ok dbg_a =>
      let eb := _export_mkl Handle.b oB b_dbl "csr" false
      match eb.res with
      | .error e => (ea.tr ++ eb.tr, .error e)
      | .ok dbg_b =>
        (ea.tr ++ eb.tr,
         if dbg_a.rows ≠ aMat.rows ∨ dbg_a.cols ≠ aMat.cols then
           .error .assertionError
         else if dbg_b.rows ≠ bMat.rows ∨ dbg_b.cols ≠ bMat.cols then
           .error .assertionError
         else .ok ())
  else ([], .ok ())

/-- Lines 533-599 of `dot_product_mkl`: create both operand handles, reorder
both, optionally run the debug exports and shape asserts, multiply, reorder
the result if requested, export the result, and destroy the result handle
when `copy` was set.  `a1`, `b1` are the operand matrices after the dtype
reconciliation block. -/
def dot_vendor_phase (a1 b1 : SpMatrix) (cast copy reorder_output debug : Bool)
    (mkl_int_numpy : Dtype) (o : MklOracle) : DotResult :=
  let ca := _create_mkl_sparse Handle.a a1 cast mkl_int_numpy o.createA
  match ca.res with
  | .error e => ⟨.error e, ca.mat, b1, ca.tr⟩
  | .ok a_dbl =>
    let cb := _create_mkl_sparse Handle.b b1 cast mkl_int_numpy o.createB
    match cb.res with
    | .error e => ⟨.error e, ca.mat, cb.mat, ca.tr ++ cb.tr⟩
    | .ok b_dbl =>
      let t1 := ca.tr ++ cb.tr ++ [Ev.order Handle.a]
      match _order_mkl_handle o.orderA with
      | .error e => ⟨.error e, ca.mat, cb.mat, t1⟩
      | .ok _ =>
        let t2 := t1 ++ [Ev.order Handle.b]
        match _order_mkl_handle o.orderB with
        | .error e => ⟨.error e, ca.mat, cb.mat, t2⟩
        | .ok _ =>
          let dbg := dot_debug_block debug a_dbl b_dbl o.exportA o.exportB ca.mat cb.mat
          match dbg.2 with
          | .error e => ⟨.error e, ca.mat, cb.mat, t2 ++ dbg.1⟩
          | .ok _ =>
            let t3 := t2 ++ dbg.1 ++ [Ev.spmm]
            match _matmul_mkl o.spmm ca.mat cb.mat with
            | .error e => ⟨.error e, ca.mat, cb.mat, t3⟩
            | .ok _ =>
              let ro : List Ev × Except PyErr Unit :=
                if reorder_output then ([Ev.order Handle.c], _order_mkl_handle o.orderC)
                else ([], .ok ())
              match ro.2 with
              | .error e => ⟨.error e, ca.mat, cb.mat, t3 ++ ro.1⟩
              | .ok _ =>
                let t4 := t3 ++ ro.1
                let ex := _export_mkl Handle.c o.exportC (a_dbl || b_dbl) "csr" copy
                let t5 := t4 ++ ex.tr
                match ex.res with
                | .error e => ⟨.error e, ca.mat, cb.mat, t5⟩
                | .ok python_c =>
                  if debug ∧ python_c.nnz = 0 then
                    ⟨.error (.valueError
                      "zero-size array to reduction operation minimum which has no identity"),
                     ca.mat, cb.mat, t5⟩
                  else if copy then
                    let t6 := t5 ++ [Ev.destroy Handle.c]
                    match _destroy_mkl_handle o.destroyC with
                    | .error e => ⟨.error e, ca.mat, cb.mat, t6⟩
                    | .ok _ => ⟨.ok python_c, ca.mat, cb.mat, t6⟩
                  else ⟨.ok python_c, ca.mat, cb.mat, t5⟩

/-- The `dot_product_mkl` entry point (lines 448-599): format check,
alignment check, degenerate short-circuit (which takes its column count from
`matrix_b.shape[0]`, line 500), dtype reconciliation (in-place upcast to
float64 when `cast` is set and the dtypes differ, a `ValueError` naming both
dtypes when they differ and `cast` is unset), then the vendor phase. -/
def dot_product_mkl (matrix_a matrix_b : SpMatrix) (cast copy reorder_output debug : Bool)
    (mkl_int_numpy : Dtype) (o : MklOracle) : DotResult :=
  if matrix_a.format ≠ SpFormat.csr ∨ matrix_b.format ≠ SpFormat.csr then
    ⟨.error (.valueError "Both input matrices to csr_dot_product_mkl must be CSR"),
     matrix_a, matrix_b, []⟩
  else if matrix_a.cols ≠ matrix_b.rows then
    ⟨.error (.valueError ("Matrix alignment error: " ++ matrix_a.shapeStr ++ " * " ++
       matrix_b.shapeStr)), matrix_a, matrix_b, []⟩
  else if min (min (min matrix_a.rows matrix_a.cols) (min matrix_b.rows matrix_b.cols))
             (min (min matrix_a.data.len matrix_b.data.len)
                  (min matrix_a.indices.len matrix_b.indices.len)) = 0 then
    let final_dtype := if matrix_a.dtype ≠ matrix_b.dtype ∨ matrix_a.dtype ≠ Dtype.float32
      then Dtype.float64 else Dtype.float32
    ⟨.ok ⟨SpFormat.csr, matrix_a.rows, matrix_b.rows, final_dtype, 0⟩, matrix_a, matrix_b, []⟩
  else if matrix_a.dtype ≠ matrix_b.dtype ∧ cast then
    let a1 := if matrix_a.dtype = Dtype.float64 then matrix_a
      else { matrix_a with data := ⟨Dtype.float64, matrix_a.data.len⟩ }
    let b1 := if matrix_b.dtype = Dtype.float64 then matrix_b
      else { matrix_b with data := ⟨Dtype.float64, matrix_b.data.len⟩ }
    dot_vendor_phase a1 b1 cast copy reorder_output debug mkl_int_numpy o
  else if matrix_a.dtype ≠ matrix_b.dtype then
    ⟨.error (.valueError ("Matrix data types must be in concordance; " ++
       matrix_a.dtype.str ++ " and " ++ matrix_b.dtype.str ++ " provided")),
     matrix_a, matrix_b, []⟩
  else
    dot_vendor_phase matrix_a matrix_b cast copy reorder_output debug mkl_int_numpy o

/-- Vendor oracle whose statuses are all zero and whose export data is empty. -/
def oracleZero : MklOracle :=
  ⟨0, 0, 0, 0, ⟨0, 0, 0, 0, [], []⟩, ⟨0, 0, 0, 0, [], []⟩, 0, 0, ⟨0, 0, 0, 0, [], []⟩, 0⟩

/-- Oracle for a successful 1x1 multiply: all statuses zero, the result
export reporting a 1x1 matrix with one stored value. -/
def oracleOne : MklOracle := { oracleZero with exportC := ⟨0, 0, 1, 1, [0], [1]⟩ }

/-- Oracle failing the first reorder call with status 3 (invalid value). -/
def oracleOrderFail : MklOracle := { oracleOne with orderA := 3 }

/-- A well-formed 1x1 float32 CSR matrix with one stored value. -/
def matF32 : SpMatrix := ⟨.csr, 1, 1, ⟨.float32, 1⟩, ⟨.int64, 1⟩, ⟨.int64, 2⟩⟩

/-- A 1x2 float64 CSR matrix with one stored value. -/
def matA_C1 : SpMatrix := ⟨.csr, 1, 2, ⟨.float64, 1⟩, ⟨.int64, 1⟩, ⟨.int64, 2⟩⟩

/-- A 2x0 float64 CSR matrix (zero columns, no stored values). -/
def matB_C1 : SpMatrix := ⟨.csr, 2, 0, ⟨.float64, 0⟩, ⟨.int64, 0⟩, ⟨.int64, 3⟩⟩

/-- A 2x3 float32 CSR matrix with no stored values (degenerate operand). -/
def matA32deg : SpMatrix := ⟨.csr, 2, 3, ⟨.float32, 0⟩, ⟨.int64, 0⟩, ⟨.int64, 3⟩⟩

/-- A 3x4 float64 CSR matrix with one stored value. -/
def matB64 : SpMatrix := ⟨.csr, 3, 4, ⟨.float64, 1⟩, ⟨.int64, 1⟩, ⟨.int64, 4⟩⟩

/-- A 2x3 float32 CSR matrix with one stored value. -/
def matA32n : SpMatrix := ⟨.csr, 2, 3, ⟨.float32, 1⟩, ⟨.int64, 1⟩, ⟨.int64, 3⟩⟩

/-- A 1x1 float32 CSR matrix whose index arrays are int32-typed. -/
def matI32 : SpMatrix := ⟨.csr, 1, 1, ⟨.float32, 1⟩, ⟨.int32, 1⟩, ⟨.int32, 2⟩⟩

theorem pyLower_csr : pyLower "csr" = "csr" := by decide

theorem pyLower_csc : pyLower "csc" = "csc" := by decide

theorem statusCheck_zero (fn : String) : statusCheck fn 0 = .ok () := rfl

theorem statusCheck_fail (fn : String) (s : Nat) (h1 : 1 ≤ s) (h6 : s ≤ 6) :
    statusCheck fn s = .error (.valueError (vendorMsg fn s)) := by
  interval_cases s <;> simp [statusCheck, vendorMsg, RETURN_CODES]

theorem export_tr_sub (h : Handle) (ed : ExportData) (dp c : Bool) (e : Ev) :
    e ∈ (_export_mkl h ed dp "csr" c).tr → e = Ev.exportH h := by
  simp only [_export_mkl, pyLower_csr]
  split
  · simp_all
  · split
    · simp_all
    · split
      · simp_all
      · split
        · simp_all
        · split
          · simp_all
          · split
            · simp_all
            · simp_all

theorem export_res_dtype (h : Handle) (ed : ExportData) (dp c : Bool) (m : SciMat)
    (hm : (_export_mkl h ed dp "csr" c).res = .ok m) :
    m.dtype = (if dp then Dtype.float64 else Dtype.float32) := by
  simp only [_export_mkl, pyLower_csr] at hm
  split at hm
  · simp_all
  · split at hm
    · simp_all
    · split at hm
      · simp_all
      · split at hm
        · simp only [Except.ok.injEq] at hm
          subst hm
          rfl
        · split at hm
          · simp only [Except.ok.injEq] at hm
            subst hm
            rfl
          · split at hm
            · simp_all
            · simp only [Except.ok.injEq] at hm
              subst hm
              rfl

theorem pass_map_ok {fn : String} {s : Nat} {v dp : Bool}
    (h : (_pass_mkl_handle fn s).map (fun _ => v) = Except.ok dp) : dp = v := by
  unfold _pass_mkl_handle statusCheck at h
  split at h
  · split at h <;> simp_all [Except.map]
  · simp [Except.map] at h
    exact h.symm

theorem createBody_tr_sub (h : Handle) (m1 : SpMatrix) (dp : Bool) (w : Dtype) (s : Nat)
    (e : Ev) : e ∈ (createBody h m1 dp w s).tr → e = Ev.create h := by
  simp only [createBody]
  split
  · simp_all
  · split
    · split
      · simp_all
      · simp_all
    · split
      · split
        · simp_all
        · simp_all
      · simp_all

theorem create_tr_sub (h : Handle) (m0 : SpMatrix) (cast : Bool) (w : Dtype) (s : Nat)
    (e : Ev) : e ∈ (_create_mkl_sparse h m0 cast w s).tr → e = Ev.create h := by
  simp only [_create_mkl_sparse]
  split
  · exact createBody_tr_sub _ _ _ _ _ _
  · split
    · exact createBody_tr_sub _ _ _ _ _ _
    · split
      · exact createBody_tr_sub _ _ _ _ _ _
      · simp_all

theorem createBody_res_dp (h : Handle) (m1 : SpMatrix) (dp : Bool) (w : Dtype) (s : Nat)
    (dp' : Bool) (hc : (createBody h m1 dp w s).res = .ok dp') : dp' = dp := by
  simp only [createBody] at hc
  split at hc
  · simp_all
  · split at hc
    · split at hc
      · simp_all
      · exact pass_map_ok hc
    · split at hc
      · split at hc
        · simp_all
        · exact pass_map_ok hc
      · simp_all

theorem create_res_dp (h : Handle) (m0 : SpMatrix) (cast : Bool) (w : Dtype) (s : Nat)
    (dp : Bool) (hc : (_create_mkl_sparse h m0 cast w s).res = .ok dp) :
    (dp = false ↔ m0.dtype = Dtype.float32) := by
  simp only [_create_mkl_sparse] at hc
  split at hc
  · next h32 => simp [createBody_res_dp _ _ _ _ _ _ hc, h32]
  · next h32 =>
    split at hc
    · simp [createBody_res_dp _ _ _ _ _ _ hc, h32]
    · split at hc
      · simp [createBody_res_dp _ _ _ _ _ _ hc, h32]
      · simp_all

theorem dbg_tr_sub (debug a_dbl b_dbl : Bool) (oA oB : ExportData) (aM bM : SpMatrix)
    (e : Ev) : e ∈ (dot_debug_block debug a_dbl b_dbl oA oB aM bM).1 →
    e = Ev.exportH Handle.a ∨ e = Ev.exportH Handle.b := by
  simp only [dot_debug_block]
  split
  · split
    · intro hm
      exact Or.inl (export_tr_sub _ _ _ _ _ hm)
    · split
      · intro hm
        simp only [List.mem_append] at hm
        rcases hm with hm | hm
        · exact Or.inl (export_tr_sub _ _ _ _ _ hm)
        · exact Or.inr (export_tr_sub _ _ _ _ _ hm)
      · intro hm
        simp only [List.mem_append] at hm
        rcases hm with hm | hm
        · exact Or.inl (export_tr_sub _ _ _ _ _ hm)
        · exact Or.inr (export_tr_sub _ _ _ _ _ hm)
  · simp

@[simp] theorem create_tr_no_order (h : Handle) (m0 : SpMatrix) (c : Bool) (w : Dtype)
    (s : Nat) (x : Handle) : Ev.order x ∉ (_create_mkl_sparse h m0 c w s).tr := by
  intro hm
  have := create_tr_sub h m0 c w s _ hm
  simp at this

@[simp] theorem create_tr_no_spmm (h : Handle) (m0 : SpMatrix) (c : Bool) (w : Dtype)
    (s : Nat) : Ev.spmm ∉ (_create_mkl_sparse h m0 c w s).tr := by
  intro hm
  have := create_tr_sub h m0 c w s _ hm
  simp at this

@[simp] theorem create_tr_no_destroy (h : Handle) (m0 : SpMatrix) (c : Bool) (w : Dtype)
    (s : Nat) (x : Handle) : Ev.destroy x ∉ (_create_mkl_sparse h m0 c w s).tr := by
  intro hm
  have := create_tr_sub h m0 c w s _ hm
  simp at this

@[simp] theorem export_tr_no_order (h : Handle) (ed : ExportData) (dp c : Bool)
    (x : Handle) : Ev.order x ∉ (_export_mkl h ed dp "csr" c).tr := by
  intro hm
  have := export_tr_sub h ed dp c _ hm
  simp at this

@[simp] theorem export_tr_no_spmm (h : Handle) (ed : ExportData) (dp c : Bool) :
    Ev.spmm ∉ (_export_mkl h ed dp "csr" c).tr := by
  intro hm
  have := export_tr_sub h ed dp c _ hm
  simp at this

@[simp] theorem export_tr_no_destroy (h : Handle) (ed : ExportData) (dp c : Bool)
    (x : Handle) : Ev.destroy x ∉ (_export_mkl h ed dp "csr" c).tr := by
  intro hm
  have := export_tr_sub h ed dp c _ hm
  simp at this

@[simp] theorem dbg_tr_no_order (debug a_dbl b_dbl : Bool) (oA oB : ExportData)
    (aM bM : SpMatrix) (x : Handle) :
    Ev.order x ∉ (dot_debug_block debug a_dbl b_dbl oA oB aM bM).1 := by
  intro hm
  rcases dbg_tr_sub debug a_dbl b_dbl oA oB aM bM _ hm with h | h <;> simp at h

@[simp] theorem dbg_tr_no_spmm (debug a_dbl b_dbl : Bool) (oA oB : ExportData)
    (aM bM : SpMatrix) : Ev.spmm ∉ (dot_debug_block debug a_dbl b_dbl oA oB aM bM).1 := by
  intro hm
  rcases dbg_tr_sub debug a_dbl b_dbl oA oB aM bM _ hm with h | h <;> simp at h

@[simp] theorem dbg_tr_no_destroy (debug a_dbl b_dbl : Bool) (oA oB : ExportData)
    (aM bM : SpMatrix) (x : Handle) :
    Ev.destroy x ∉ (dot_debug_block debug a_dbl b_dbl oA oB aM bM).1 := by
  intro hm
  rcases dbg_tr_sub debug a_dbl b_dbl oA oB aM bM _ hm with h | h <;> simp at h

theorem vp_ok_inv (a1 b1 : SpMatrix) (cast copy reorder_output debug : Bool) (w : Dtype)
    (o : MklOracle) (m : SciMat)
    (hm : (dot_vendor_phase a1 b1 cast copy reorder_output debug w o).res = .ok m) :
    ∃ a_dbl b_dbl,
      (_create_mkl_sparse Handle.a a1 cast w o.createA).res = .ok a_dbl ∧
      (_create_mkl_sparse Handle.b b1 cast w o.createB).res = .ok b_dbl ∧
      (_export_mkl Handle.c o.exportC (a_dbl || b_dbl) "csr" copy).res = .ok m ∧
      (dot_vendor_phase a1 b1 cast copy reorder_output debug w o).finalA =
        (_create_mkl_sparse Handle.a a1 cast w o.createA).mat ∧
      (dot_vendor_phase a1 b1 cast copy reorder_output debug w o).finalB =
        (_create_mkl_sparse Handle.b b1 cast w o.createB).mat := by
  simp only [dot_vendor_phase] at hm ⊢
  cases hca : (_create_mkl_sparse Handle.a a1 cast w o.createA).res with
  | error e => simp [hca] at hm
  | ok a_dbl =>
  cases hcb : (_create_mkl_sparse Handle.b b1 cast w o.createB).res with
  | error e => simp [hca, hcb] at hm
  | ok b_dbl =>
  cases hoa : _order_mkl_handle o.orderA with
  | error e => simp [hca, hcb, hoa] at hm
  | ok ua =>
  cases hob : _order_mkl_handle o.orderB with
  | error e => simp [hca, hcb, hoa, hob] at hm
  | ok ub =>
  cases hdbg : (dot_debug_block debug a_dbl b_dbl o.exportA o.exportB
      (_create_mkl_sparse Handle.a a1 cast w o.createA).mat
      (_create_mkl_sparse Handle.b b1 cast w o.createB).mat).2 with
  | error e => simp [hca, hcb, hoa, hob, hdbg] at hm
  | ok ud =>
  cases hmm : _matmul_mkl o.spmm (_create_mkl_sparse Handle.a a1 cast w o.createA).mat
      (_create_mkl_sparse Handle.b b1 cast w o.createB).mat with
  | error e => simp [hca, hcb, hoa, hob, hdbg, hmm] at hm
  | ok um =>
  cases hro : (if reorder_output then ([Ev.order Handle.c], _order_mkl_handle o.orderC)
      else ([], (Except.ok () : Except PyErr Unit))).2 with
  | error e => simp [hca, hcb, hoa, hob, hdbg, hmm, hro] at hm
  | ok ur =>
  cases hex : (_export_mkl Handle.c o.exportC (a_dbl || b_dbl) "csr" copy).res with
  | error e => simp [hca, hcb, hoa, hob, hdbg, hmm, hro, hex] at hm
  | ok python_c =>
  by_cases hdn : (debug = true ∧ python_c.nnz = 0)
  · obtain ⟨hd, hz⟩ := hdn
    subst hd
    simp [hca, hcb, hoa, hob, hdbg, hmm, hro, hex, hz] at hm
  · cases hcopy : copy with
    | true =>
      cases hdc : _destroy_mkl_handle o.destroyC with
      | error e =>
        rw [hcopy] at hm hex
        simp [hca, hcb, hoa, hob, hdbg, hmm, hro, hex, hdn, hdc] at hm
      | ok ud2 =>
        rw [hcopy] at hm hex
        simp only [hca, hcb, hoa, hob, hdbg, hmm, hro, hex, hdn, hdc, if_false,
          ite_false, if_true, ite_true] at hm
        simp [hdn] at hm
        refine ⟨a_dbl, b_dbl, rfl, rfl, ?_, ?_, ?_⟩
        · rw [hex, hm]
        · simp [hca, hcb, hoa, hob, hdbg, hmm, hro, hex, hdn, hdc]
        · simp [hca, hcb, hoa, hob, hdbg, hmm, hro, hex, hdn, hdc]
    | false =>
      rw [hcopy] at hm hex
      simp [hca, hcb, hoa, hob, hdbg, hmm, hro, hex, hdn] at hm
      refine ⟨a_dbl, b_dbl, rfl, rfl, ?_, ?_, ?_⟩
      · rw [hex, hm]
      · simp [hca, hcb, hoa, hob, hdbg, hmm, hro, hex, hdn]
      · simp [hca, hcb, hoa, hob, hdbg, hmm, hro, hex, hdn]

theorem check_typing_char (m : SpMatrix) (w : Dtype) :
    _check_scipy_index_typing m w =
      { m with indices := ⟨w, m.indices.len⟩, indptr := ⟨w, m.indptr.len⟩ } := by
  obtain ⟨fmt, r, c, d, ⟨idt, il⟩, ⟨pdt, pl⟩⟩ := m
  simp only [_check_scipy_index_typing]
  by_cases h1 : pdt = w <;> by_cases h2 : idt = w <;> simp [h1, h2]

theorem createBody_mat (h : Handle) (m1 : SpMatrix) (dp : Bool) (w : Dtype) (s : Nat) :
    (createBody h m1 dp w s).mat = _check_scipy_index_typing m1 w := by
  simp only [createBody]
  repeat' split
  all_goals rfl

theorem create_ok_mat (h : Handle) (m0 : SpMatrix) (cast : Bool) (w : Dtype) (s : Nat)
    (dp : Bool) (hc : (_create_mkl_sparse h m0 cast w s).res = .ok dp) :
    (_create_mkl_sparse h m0 cast w s).mat =
      { m0 with
        data := ⟨if m0.dtype = Dtype.float32 then Dtype.float32 else Dtype.float64,
                 m0.data.len⟩,
        indices := ⟨w, m0.indices.len⟩,
        indptr := ⟨w, m0.indptr.len⟩ } := by
  obtain ⟨fmt, r, c, ⟨ddt, dl⟩, ⟨idt, il⟩, ⟨pdt, pl⟩⟩ := m0
  by_cases h32 : ddt = Dtype.float32
  · subst h32
    simp only [_create_mkl_sparse, SpMatrix.dtype]
    simp [createBody_mat, check_typing_char]
  · by_cases h64 : ddt = Dtype.float64
    · subst h64
      simp only [_create_mkl_sparse, SpMatrix.dtype]
      simp [createBody_mat, check_typing_char]
    · by_cases hcast : cast = true
      · subst hcast
        simp only [_create_mkl_sparse, SpMatrix.dtype]
        simp [h32, h64, createBody_mat, check_typing_char]
      · exfalso
        simp only [_create_mkl_sparse, SpMatrix.dtype] at hc
        simp [h32, h64, hcast] at hc

theorem vp_res_dtype (a1 b1 : SpMatrix) (cast copy reorder_output debug : Bool) (w : Dtype)
    (o : MklOracle) (m : SciMat)
    (hm : (dot_vendor_phase a1 b1 cast copy reorder_output debug w o).res = .ok m) :
    m.dtype = (if a1.dtype = Dtype.float32 ∧ b1.dtype = Dtype.float32
               then Dtype.float32 else Dtype.float64) := by
  obtain ⟨a_dbl, b_dbl, hca, hcb, hex, -, -⟩ :=
    vp_ok_inv a1 b1 cast copy reorder_output debug w o m hm
  have hd := export_res_dtype _ _ _ _ _ hex
  have ha := create_res_dp _ _ _ _ _ _ hca
  have hb := create_res_dp _ _ _ _ _ _ hcb
  cases a_dbl <;> cases b_dbl <;> simp_all

theorem vp_orderC (a1 b1 : SpMatrix) (cast copy reorder_output debug : Bool) (w : Dtype)
    (o : MklOracle) :
    Ev.order Handle.c ∈ (dot_vendor_phase a1 b1 cast copy reorder_output debug w o).trace →
    reorder_output = true := by
  simp only [dot_vendor_phase]
  repeat' split
  all_goals intro hm
  all_goals simp_all

theorem vp_destroyC (a1 b1 : SpMatrix) (cast copy reorder_output debug : Bool) (w : Dtype)
    (o : MklOracle) :
    Ev.destroy Handle.c ∈ (dot_vendor_phase a1 b1 cast copy reorder_output debug w o).trace →
    copy = true := by
  simp only [dot_vendor_phase]
  repeat' split
  all_goals intro hm
  all_goals simp_all

theorem spmm_mid_lemma (A B D X : List Ev) :
    ∃ u v, A ++ (B ++ (Ev.order Handle.a :: (Ev.order Handle.b :: (D ++ (Ev.spmm :: X)))))
        = u ++ Ev.spmm :: v ∧ Ev.order Handle.a ∈ u ∧ Ev.order Handle.b ∈ u :=
  ⟨A ++ (B ++ (Ev.order Handle.a :: (Ev.order Handle.b :: D))), X, by simp, by simp, by simp⟩

theorem vp_spmm_before (a1 b1 : SpMatrix) (cast copy reorder_output debug : Bool)
    (w : Dtype) (o : MklOracle) :
    Ev.spmm ∈ (dot_vendor_phase a1 b1 cast copy reorder_output debug w o).trace →
    ∃ u v, (dot_vendor_phase a1 b1 cast copy reorder_output debug w o).trace =
        u ++ Ev.spmm :: v ∧ Ev.order Handle.a ∈ u ∧ Ev.order Handle.b ∈ u := by
  simp only [dot_vendor_phase]
  repeat' split
  all_goals intro hm
  all_goals
    first
    | (simp at hm; done)
    | (clear hm
       simp only [List.append_assoc, List.singleton_append, List.cons_append]
       exact spmm_mid_lemma _ _ _ _)


/-- C1: the claim says the degenerate short-circuit result has shape
(left-rows, right-cols).  The code takes the column count from
`matrix_b.shape[0]` (line 500): multiplying a 1x2 empty matrix by a 2x0
matrix returns a 1x2 result, although right-cols is 0 and the docstring
promises the shape of A * B, which is 1x0.  This theorem evaluates the code
at that failing input. -/
theorem C1_degenerate_shape_bug :
    (dot_product_mkl matA_C1 matB_C1 false false false false Dtype.int64 oracleZero).res =
      .ok ⟨SpFormat.csr, 1, 2, Dtype.float64, 0⟩ ∧
    matB_C1.rows = 2 ∧ matB_C1.cols = 0 := by decide

/-- C2: the claim says every handle created during the call is destroyed on
every exit path.  The code never destroys the operand handles and destroys
the result handle only under `copy`: a successful `copy=False` run makes six
vendor calls and no destroy call at all, and a run whose first reorder call
fails propagates the error with both operand handles created and no destroy
call.  This theorem evaluates the code on both runs. -/
theorem C2_handles_never_destroyed :
    ((dot_product_mkl matF32 matF32 false false false false Dtype.int64 oracleOne).res =
        .ok ⟨SpFormat.csr, 1, 1, Dtype.float32, 1⟩ ∧
      (dot_product_mkl matF32 matF32 false false false false Dtype.int64 oracleOne).trace =
        [Ev.create Handle.a, Ev.create Handle.b, Ev.order Handle.a, Ev.order Handle.b,
         Ev.spmm, Ev.exportH Handle.c]) ∧
    ((dot_product_mkl matF32 matF32 false false false false Dtype.int64 oracleOrderFail).res =
        .error (.valueError "mkl_sparse_order returned 3 (SPARSE_STATUS_INVALID_VALUE)") ∧
      (dot_product_mkl matF32 matF32 false false false false Dtype.int64 oracleOrderFail).trace =
        [Ev.create Handle.a, Ev.create Handle.b, Ev.order Handle.a]) := by decide

/-- C3: whenever `dot_product_mkl` returns a matrix, its dtype is float32
when both operands were float32 and float64 in every other case, on the
degenerate short-circuit path and on the vendor-multiply path alike. -/
theorem C3_dtype_policy (matrix_a matrix_b : SpMatrix) (cast copy reorder_output debug : Bool)
    (w : Dtype) (o : MklOracle) (m : SciMat)
    (hm : (dot_product_mkl matrix_a matrix_b cast copy reorder_output debug w o).res = .ok m) :
    m.dtype = (if matrix_a.dtype = Dtype.float32 ∧ matrix_b.dtype = Dtype.float32
               then Dtype.float32 else Dtype.float64) := by
  simp only [dot_product_mkl] at hm
  split at hm
  · simp at hm
  · split at hm
    · simp at hm
    · split at hm
      · injection hm with hm2
        subst hm2
        show (if matrix_a.dtype ≠ matrix_b.dtype ∨ matrix_a.dtype ≠ Dtype.float32
              then Dtype.float64 else Dtype.float32) =
             (if matrix_a.dtype = Dtype.float32 ∧ matrix_b.dtype = Dtype.float32
              then Dtype.float32 else Dtype.float64)
        by_cases h1 : matrix_a.dtype = Dtype.float32
        · by_cases h2 : matrix_b.dtype = Dtype.float32
          · rw [if_neg (fun hor => Or.elim hor (fun hne' => hne' (h1.trans h2.symm))
                  (fun hne' => hne' h1)),
                if_pos (And.intro h1 h2)]
          · rw [if_pos (Or.inl (fun hh => h2 (hh.symm.trans h1))),
                if_neg (fun hand => h2 hand.2)]
        · rw [if_pos (Or.inr h1), if_neg (fun hand => h1 hand.1)]
      · split at hm
        · rename_i hcond
          obtain ⟨hne, -⟩ := hcond
          have hv := vp_res_dtype _ _ _ _ _ _ _ _ _ hm
          have hcond2 : ¬(matrix_a.dtype = Dtype.float32 ∧ matrix_b.dtype = Dtype.float32) := by
            rintro ⟨ha2, hb2⟩
            exact hne (ha2.trans hb2.symm)
          have hA1 : (if matrix_a.dtype = Dtype.float64 then matrix_a
              else { matrix_a with data := ⟨Dtype.float64, matrix_a.data.len⟩ }).dtype =
              Dtype.float64 := by
            split
            · assumption
            · rfl
          rw [hv, if_neg hcond2,
              if_neg (fun hand => absurd (hA1.symm.trans hand.1) (by decide))]
        · split at hm
          · simp at hm
          · exact vp_res_dtype _ _ _ _ _ _ _ _ _ hm

/-- Witness for C3: a concrete float32-by-float32 multiply returns float32. -/
theorem C3_dtype_policy_witness :
    (⟨SpFormat.csr, 1, 1, Dtype.float32, 1⟩ : SciMat).dtype =
      (if matF32.dtype = Dtype.float32 ∧ matF32.dtype = Dtype.float32
       then Dtype.float32 else Dtype.float64) :=
  C3_dtype_policy matF32 matF32 false false false false Dtype.int64 oracleOne _ (by decide)

/-- C4 counterexample: a conformable CSR pair with disagreeing dtypes
(float32 2x3 with no stored values, float64 3x4) and `cast=False` does not
fail — the degenerate short-circuit runs before the dtype check and returns
an empty float64 matrix. -/
theorem C4_counterexample :
    (dot_product_mkl matA32deg matB64 false false false false Dtype.int64 oracleZero).res =
      .ok ⟨SpFormat.csr, 2, 3, Dtype.float64, 0⟩ ∧
    matA32deg.dtype ≠ matB64.dtype := by decide

/-- C4 (amended): for every conformable CSR pair with disagreeing dtypes
that does not trigger the degenerate short-circuit (no zero dimension and no
empty value or index array), `cast=False` fails with the dtype-mismatch
ValueError naming both dtypes, and no result is returned. -/
theorem C4_dtype_mismatch (matrix_a matrix_b : SpMatrix) (copy reorder_output debug : Bool)
    (w : Dtype) (o : MklOracle)
    (hfa : matrix_a.format = SpFormat.csr) (hfb : matrix_b.format = SpFormat.csr)
    (hal : matrix_a.cols = matrix_b.rows)
    (h1 : matrix_a.rows ≠ 0) (h2 : matrix_a.cols ≠ 0)
    (h3 : matrix_b.rows ≠ 0) (h4 : matrix_b.cols ≠ 0)
    (h5 : matrix_a.data.len ≠ 0) (h6 : matrix_b.data.len ≠ 0)
    (h7 : matrix_a.indices.len ≠ 0) (h8 : matrix_b.indices.len ≠ 0)
    (hne : matrix_a.dtype ≠ matrix_b.dtype) :
    (dot_product_mkl matrix_a matrix_b false copy reorder_output debug w o).res =
      .error (.valueError ("Matrix data types must be in concordance; " ++
        matrix_a.dtype.str ++ " and " ++ matrix_b.dtype.str ++ " provided")) := by
  simp only [dot_product_mkl]
  simp [hfa, hfb, hal, h1, h2, h3, h4, h5, h6, h7, h8, hne, Nat.min_eq_zero_iff]

/-- Witness for C4's amended theorem at a concrete non-degenerate pair. -/
theorem C4_dtype_mismatch_witness :
    (dot_product_mkl matA32n matB64 false false false false Dtype.int64 oracleZero).res =
      .error (.valueError ("Matrix data types must be in concordance; " ++
        matA32n.dtype.str ++ " and " ++ matB64.dtype.str ++ " provided")) :=
  C4_dtype_mismatch matA32n matB64 false false false Dtype.int64 oracleZero rfl rfl rfl
    (by decide) (by decide) (by decide) (by decide) (by decide) (by decide) (by decide)
    (by decide) (by decide)

/-- C5 counterexample: mkl_sparse_convert_csr is a vendor entry point of
this core (used by the module-load round trip), and its nonzero status is
raised as a generic error that names neither the entry point nor any of the
six status categories. -/
theorem C5_counterexample :
    _convert_to_csr 3 0 = .error (.valueError "CSC to CSR Conversion failed") ∧
    strContains "CSC to CSR Conversion failed" "SPARSE_STATUS" = false ∧
    strContains "CSC to CSR Conversion failed" "convert" = false := by decide

/-- C5 (amended): zero is success, and every nonzero status (1..6) from the
create, spmm, destroy, order and export entry points is raised as a
ValueError carrying the entry-point name and the named category; the
convert-to-CSR entry point alone raises a fixed generic message instead. -/
theorem C5_status_mapping (fn : String) (s : Nat) (h1 : 1 ≤ s) (h6 : s ≤ 6)
    (a b : SpMatrix) (h : Handle) (ed : ExportData) (dp c : Bool) (hs : ed.status = s) :
    _pass_mkl_handle fn s = .error (.valueError (vendorMsg fn s)) ∧
    _matmul_mkl s a b = .error (.valueError (vendorMsg "mkl_sparse_spmm" s)) ∧
    _destroy_mkl_handle s = .error (.valueError (vendorMsg "mkl_sparse_destroy" s)) ∧
    _order_mkl_handle s = .error (.valueError (vendorMsg "mkl_sparse_order" s)) ∧
    (_export_mkl h ed dp "csr" c).res =
      .error (.valueError (vendorMsg (exportFnName dp "csr") s)) ∧
    _convert_to_csr s 0 = .error (.valueError "CSC to CSR Conversion failed") ∧
    statusCheck fn 0 = .ok () := by
  have hne : s ≠ 0 := by omega
  refine ⟨statusCheck_fail fn s h1 h6, ?_, ?_, ?_, ?_, ?_, rfl⟩
  · simp [_matmul_mkl, statusCheck_fail _ s h1 h6]
  · exact statusCheck_fail _ s h1 h6
  · exact statusCheck_fail _ s h1 h6
  · simp [_export_mkl, pyLower_csr, hs, statusCheck_fail _ s h1 h6]
  · simp [_convert_to_csr, hne, _destroy_mkl_handle, statusCheck]

/-- Witness for C5's amended theorem at status 2 (allocation failed). -/
theorem C5_status_mapping_witness :
    _pass_mkl_handle "mkl_sparse_s_create_csr" 2 =
      .error (.valueError (vendorMsg "mkl_sparse_s_create_csr" 2)) ∧
    _matmul_mkl 2 matF32 matF32 = .error (.valueError (vendorMsg "mkl_sparse_spmm" 2)) ∧
    _destroy_mkl_handle 2 = .error (.valueError (vendorMsg "mkl_sparse_destroy" 2)) ∧
    _order_mkl_handle 2 = .error (.valueError (vendorMsg "mkl_sparse_order" 2)) ∧
    (_export_mkl Handle.c ⟨2, 0, 0, 0, [], []⟩ true "csr" false).res =
      .error (.valueError (vendorMsg (exportFnName true "csr") 2)) ∧
    _convert_to_csr 2 0 = .error (.valueError "CSC to CSR Conversion failed") ∧
    statusCheck "mkl_sparse_s_create_csr" 0 = .ok () := by
  exact C5_status_mapping "mkl_sparse_s_create_csr" 2 (by decide) (by decide) matF32 matF32
    Handle.c ⟨2, 0, 0, 0, [], []⟩ true false rfl

/-- C6: after a successful vendor export call with 0-based ordering, the
export routine returns a structurally empty matrix of the reported shape
when either reported dimension is zero (making no further vendor call: the
trace is the single export event), returns an empty matrix of the given
shape when the pointer-difference nnz is exactly zero, and raises the
corrupt-export ValueError when nnz is negative or exceeds rows times cols. -/
theorem C6_export_branches (h : Handle) (ed : ExportData) (dp c : Bool) (ot : String)
    (hot : ot = "csr" ∨ ot = "csc") (h0 : ed.status = 0) (hord : ed.ordering = 0) :
    (ed.nrows = 0 ∨ ed.ncols = 0 →
      _export_mkl h ed dp ot c = ⟨[Ev.exportH h],
        .ok ⟨if ot = "csr" then SpFormat.csr else SpFormat.csc, ed.nrows, ed.ncols,
             (if dp then Dtype.float64 else Dtype.float32), 0⟩⟩) ∧
    (ed.nrows ≠ 0 → ed.ncols ≠ 0 →
      (ed.indptren.getLastD (ed.indptrb.headD 0) - ed.indptrb.headD 0 : Int) = 0 →
      _export_mkl h ed dp ot c = ⟨[Ev.exportH h],
        .ok ⟨if ot = "csr" then SpFormat.csr else SpFormat.csc, ed.nrows, ed.ncols,
             (if dp then Dtype.float64 else Dtype.float32), 0⟩⟩) ∧
    (ed.nrows ≠ 0 → ed.ncols ≠ 0 →
      ((ed.indptren.getLastD (ed.indptrb.headD 0) - ed.indptrb.headD 0 : Int) < 0 ∨
        ((ed.ncols : Int) * (ed.nrows : Int) <
          ed.indptren.getLastD (ed.indptrb.headD 0) - ed.indptrb.headD 0)) →
      (_export_mkl h ed dp ot c).res = .error (.valueError
        ("Matrix (" ++ toString ed.nrows ++ " x " ++ toString ed.ncols ++
         ") is attempting to index " ++
         toString (ed.indptren.getLastD (ed.indptrb.headD 0) - ed.indptrb.headD 0 : Int) ++
         " elements"))) := by
  obtain ⟨st, og, nr, nc, ipb, ipe⟩ := ed
  simp only at h0 hord
  subst h0
  subst hord
  refine ⟨?_, ?_, ?_⟩
  · intro hzero
    rcases hzero with hz | hz <;> subst hz <;>
      rcases hot with rfl | rfl <;>
      simp [_export_mkl, pyLower_csr, pyLower_csc, statusCheck]
  · intro hnr hnc hz
    simp only [ExportData.nrows, ExportData.ncols, ExportData.indptrb, ExportData.indptren]
      at hnr hnc hz
    rcases hot with rfl | rfl <;>
      simp [_export_mkl, pyLower_csr, pyLower_csc, statusCheck, hnr, hnc, hz] <;>
      (intro h'; exact absurd (by simpa using hz) h')
  · intro hnr hnc hbad
    simp only [ExportData.nrows, ExportData.ncols, ExportData.indptrb, ExportData.indptren]
      at hnr hnc hbad
    have hbad2 : ipe.getLast?.getD (ipb.head?.getD 0) < ipb.head?.getD 0 ∨
        (nc : Int) * (nr : Int) < ipe.getLast?.getD (ipb.head?.getD 0) - ipb.head?.getD 0 := by
      simpa using hbad
    have hne0 : ¬(ipe.getLast?.getD (ipb.head?.getD 0) - ipb.head?.getD 0 = 0) := by
      rcases hbad2 with hb | hb
      · omega
      · have hprod : (0 : Int) ≤ (nc : Int) * (nr : Int) := by positivity
        omega
    rcases hbad2 with hb | hb <;>
      rcases hot with rfl | rfl <;>
      simp [_export_mkl, pyLower_csr, pyLower_csc, statusCheck, hnr, hnc, hne0, hb]

/-- Witness for C6 at a concrete export reporting a 0-by-5 result. -/
theorem C6_export_branches_witness :
    _export_mkl Handle.c ⟨0, 0, 0, 5, [], []⟩ true "csr" false = ⟨[Ev.exportH Handle.c],
      .ok ⟨if "csr" = "csr" then SpFormat.csr else SpFormat.csc, 0, 5,
           (if true then Dtype.float64 else Dtype.float32), 0⟩⟩ :=
  (C6_export_branches Handle.c ⟨0, 0, 0, 5, [], []⟩ true false "csr"
    (Or.inl rfl) rfl rfl).1 (Or.inl rfl)

/-- C7: whenever the vendor reports 1-based (Fortran-style) ordering, the
export routine fails with the unsupported-ordering ValueError and no matrix
is constructed. -/
theorem C7_one_based_ordering_rejected (h : Handle) (ed : ExportData) (dp c : Bool)
    (ot : String) (hot : ot = "csr" ∨ ot = "csc")
    (h0 : ed.status = 0) (hord : ed.ordering = 1) :
    (_export_mkl h ed dp ot c).res =
      .error (.valueError "1-indexing (F-style) is not supported") := by
  obtain ⟨st, og, nr, nc, ipb, ipe⟩ := ed
  simp only at h0 hord
  subst h0
  subst hord
  rcases hot with rfl | rfl <;>
    simp [_export_mkl, pyLower_csr, pyLower_csc, statusCheck]

/-- Witness for C7 at a concrete export reporting 1-based ordering. -/
theorem C7_one_based_ordering_rejected_witness :
    (_export_mkl Handle.c ⟨0, 1, 2, 2, [0], [1]⟩ true "csr" false).res =
      .error (.valueError "1-indexing (F-style) is not supported") :=
  C7_one_based_ordering_rejected Handle.c ⟨0, 1, 2, 2, [0], [1]⟩ true false "csr"
    (Or.inl rfl) rfl rfl

/-- C8: in every `dot_product_mkl` run, whenever the vendor multiply call
occurs, both operand handles were reordered before it; the result handle is
reordered only when `reorder_output` was requested; and the result handle is
destroyed only when `copy` semantics were used. -/
theorem C8_order_and_destroy_discipline (matrix_a matrix_b : SpMatrix)
    (cast copy reorder_output debug : Bool) (w : Dtype) (o : MklOracle) :
    (Ev.spmm ∈ (dot_product_mkl matrix_a matrix_b cast copy reorder_output debug w o).trace →
      ∃ u v, (dot_product_mkl matrix_a matrix_b cast copy reorder_output debug w o).trace =
        u ++ Ev.spmm :: v ∧ Ev.order Handle.a ∈ u ∧ Ev.order Handle.b ∈ u) ∧
    (Ev.order Handle.c ∈
        (dot_product_mkl matrix_a matrix_b cast copy reorder_output debug w o).trace →
      reorder_output = true) ∧
    (Ev.destroy Handle.c ∈
        (dot_product_mkl matrix_a matrix_b cast copy reorder_output debug w o).trace →
      copy = true) := by
  simp only [dot_product_mkl]
  split
  · simp
  · split
    · simp
    · split
      · simp
      · split
        · exact ⟨vp_spmm_before _ _ _ _ _ _ _ _, vp_orderC _ _ _ _ _ _ _ _,
            vp_destroyC _ _ _ _ _ _ _ _⟩
        · split
          · simp
          · exact ⟨vp_spmm_before _ _ _ _ _ _ _ _, vp_orderC _ _ _ _ _ _ _ _,
              vp_destroyC _ _ _ _ _ _ _ _⟩

/-- Witness for C8 at a concrete successful run with reordering and copy. -/
theorem C8_order_and_destroy_discipline_witness :
    (∃ u v, (dot_product_mkl matF32 matF32 false true true false Dtype.int64 oracleOne).trace =
        u ++ Ev.spmm :: v ∧ Ev.order Handle.a ∈ u ∧ Ev.order Handle.b ∈ u) ∧
    true = true ∧ true = true := by
  have h := C8_order_and_destroy_discipline matF32 matF32 false true true false
    Dtype.int64 oracleOne
  exact ⟨h.1 (by decide), h.2.1 (by decide), h.2.2 (by decide)⟩

/-- C9: integer-width discovery is skipped when a width is already set
(runs once); otherwise 64-bit is tried first and kept on success; a caught
round-trip failure rebinds to 32-bit and retries; a second caught failure
raises the fatal ImportError. -/
theorem C9_int_width_discovery (r64 r32 : Option PyErr) (cur : MklIntWidth) :
    (moduleIntTypeDiscovery (some cur) r64 r32 = .ok (some cur)) ∧
    (r64 = none → moduleIntTypeDiscovery none r64 r32 = .ok (some MklIntWidth.i64)) ∧
    (∀ e, r64 = some e → catchable e = true → r32 = none →
      moduleIntTypeDiscovery none r64 r32 = .ok (some MklIntWidth.i32)) ∧
    (∀ e e2, r64 = some e → catchable e = true → r32 = some e2 → catchable e2 = true →
      moduleIntTypeDiscovery none r64 r32 =
        .error (.importError "Unable to set MKL numeric types")) := by
  refine ⟨rfl, ?_, ?_, ?_⟩
  · rintro rfl
    rfl
  · rintro e rfl hc rfl
    simp [moduleIntTypeDiscovery, hc]
  · rintro e e2 rfl hc rfl hc2
    simp [moduleIntTypeDiscovery, hc, hc2]

/-- Witness for C9: a failed 64-bit round trip with a successful 32-bit
retry yields the 32-bit width. -/
theorem C9_int_width_discovery_witness :
    moduleIntTypeDiscovery (some MklIntWidth.i64) none none = .ok (some MklIntWidth.i64) ∧
    moduleIntTypeDiscovery none none none = .ok (some MklIntWidth.i64) ∧
    moduleIntTypeDiscovery none (some PyErr.assertionError) none = .ok (some MklIntWidth.i32) ∧
    moduleIntTypeDiscovery none (some PyErr.assertionError) (some (PyErr.valueError "x")) =
      .error (.importError "Unable to set MKL numeric types") := by
  have h1 := C9_int_width_discovery none none MklIntWidth.i64
  have h2 := C9_int_width_discovery (some PyErr.assertionError) none MklIntWidth.i64
  have h3 := C9_int_width_discovery (some PyErr.assertionError)
    (some (PyErr.valueError "x")) MklIntWidth.i64
  exact ⟨h1.1, h1.2.1 rfl, h2.2.2.1 PyErr.assertionError rfl rfl rfl,
    h3.2.2.2 PyErr.assertionError (PyErr.valueError "x") rfl rfl rfl rfl⟩

/-- C10: on a successful run that reached the vendor multiply, the caller's
matrices are returned mutated and not restored: index and pointer arrays are
re-typed to the discovered MKL integer width (same lengths), and the value
arrays carry float32 only when both operands were float32 and float64
otherwise (the in-place casts of the reconciliation block and of
`_create_mkl_sparse`). -/
theorem C10_input_mutation (matrix_a matrix_b : SpMatrix)
    (cast copy reorder_output debug : Bool) (w : Dtype) (o : MklOracle) (m : SciMat)
    (hok : (dot_product_mkl matrix_a matrix_b cast copy reorder_output debug w o).res = .ok m)
    (hvp : Ev.spmm ∈ (dot_product_mkl matrix_a matrix_b cast copy reorder_output debug w o).trace) :
    (dot_product_mkl matrix_a matrix_b cast copy reorder_output debug w o).finalA =
      { matrix_a with
        data := ⟨if matrix_a.dtype = Dtype.float32 ∧ matrix_b.dtype = Dtype.float32
                 then Dtype.float32 else Dtype.float64, matrix_a.data.len⟩,
        indices := ⟨w, matrix_a.indices.len⟩,
        indptr := ⟨w, matrix_a.indptr.len⟩ } ∧
    (dot_product_mkl matrix_a matrix_b cast copy reorder_output debug w o).finalB =
      { matrix_b with
        data := ⟨if matrix_a.dtype = Dtype.float32 ∧ matrix_b.dtype = Dtype.float32
                 then Dtype.float32 else Dtype.float64, matrix_b.data.len⟩,
        indices := ⟨w, matrix_b.indices.len⟩,
        indptr := ⟨w, matrix_b.indptr.len⟩ } := by
  unfold dot_product_mkl at hok hvp ⊢
  by_cases c1 : matrix_a.format ≠ SpFormat.csr ∨ matrix_b.format ≠ SpFormat.csr
  · rw [if_pos c1] at hok
    exact absurd hok (by simp)
  · rw [if_neg c1] at hok hvp ⊢
    by_cases c2 : matrix_a.cols ≠ matrix_b.rows
    · rw [if_pos c2] at hok
      exact absurd hok (by simp)
    · rw [if_neg c2] at hok hvp ⊢
      by_cases c3 : min (min (min matrix_a.rows matrix_a.cols) (min matrix_b.rows matrix_b.cols))
          (min (min matrix_a.data.len matrix_b.data.len)
               (min matrix_a.indices.len matrix_b.indices.len)) = 0
      · rw [if_pos c3] at hvp
        exact absurd hvp (by simp)
      · rw [if_neg c3] at hok hvp ⊢
        by_cases c4 : matrix_a.dtype ≠ matrix_b.dtype ∧ cast = true
        · rw [if_pos c4] at hok ⊢
          obtain ⟨hne, -⟩ := c4
          obtain ⟨a_dbl, b_dbl, hca, hcb, -, hfa, hfb⟩ := vp_ok_inv _ _ _ _ _ _ _ _ _ hok
          rw [hfa, hfb, create_ok_mat _ _ _ _ _ _ hca, create_ok_mat _ _ _ _ _ _ hcb]
          have hcond2 : ¬(matrix_a.dtype = Dtype.float32 ∧ matrix_b.dtype = Dtype.float32) := by
            rintro ⟨ha2, hb2⟩
            exact hne (ha2.trans hb2.symm)
          simp only [if_neg hcond2]
          constructor
          · by_cases h64 : matrix_a.dtype = Dtype.float64
            · simp only [if_pos h64]
              obtain ⟨fmt, r, c, ⟨ddt, dl⟩, bi, bp⟩ := matrix_a
              simp only [SpMatrix.dtype] at h64
              simp [h64, SpMatrix.dtype]
            · simp only [if_neg h64]
              simp [SpMatrix.dtype]
          · by_cases h64 : matrix_b.dtype = Dtype.float64
            · simp only [if_pos h64]
              obtain ⟨fmt, r, c, ⟨ddt, dl⟩, bi, bp⟩ := matrix_b
              simp only [SpMatrix.dtype] at h64
              simp [h64, SpMatrix.dtype]
            · simp only [if_neg h64]
              simp [SpMatrix.dtype]
        · rw [if_neg c4] at hok ⊢
          by_cases c5 : matrix_a.dtype ≠ matrix_b.dtype
          · rw [if_pos c5] at hok
            exact absurd hok (by simp)
          · rw [if_neg c5] at hok ⊢
            have heq : matrix_a.dtype = matrix_b.dtype := not_not.mp c5
            obtain ⟨a_dbl, b_dbl, hca, hcb, -, hfa, hfb⟩ := vp_ok_inv _ _ _ _ _ _ _ _ _ hok
            rw [hfa, hfb, create_ok_mat _ _ _ _ _ _ hca, create_ok_mat _ _ _ _ _ _ hcb]
            constructor
            · congr 1
              by_cases h32 : matrix_a.dtype = Dtype.float32
              · rw [if_pos h32, if_pos (And.intro h32 (heq.symm.trans h32))]
              · rw [if_neg h32, if_neg (fun hand => h32 hand.1)]
            · congr 1
              by_cases h32 : matrix_b.dtype = Dtype.float32
              · rw [if_pos h32, if_pos (And.intro (heq.trans h32) h32)]
              · rw [if_neg h32, if_neg (fun hand => h32 hand.2)]

/-- Witness for C10: a successful multiply of two float32 CSR matrices with
int32 index arrays under a 64-bit MKL width returns them with int64 index
arrays. -/
theorem C10_input_mutation_witness :
    (dot_product_mkl matI32 matI32 false false false false Dtype.int64 oracleOne).finalA =
      { matI32 with
        data := ⟨if matI32.dtype = Dtype.float32 ∧ matI32.dtype = Dtype.float32
                 then Dtype.float32 else Dtype.float64, matI32.data.len⟩,
        indices := ⟨Dtype.int64, matI32.indices.len⟩,
        indptr := ⟨Dtype.int64, matI32.indptr.len⟩ } ∧
    (dot_product_mkl matI32 matI32 false false false false Dtype.int64 oracleOne).finalB =
      { matI32 with
        data := ⟨if matI32.dtype = Dtype.float32 ∧ matI32.dtype = Dtype.float32
                 then Dtype.float32 else Dtype.float64, matI32.data.len⟩,
        indices := ⟨Dtype.int64, matI32.indices.len⟩,
        indptr := ⟨Dtype.int64, matI32.indptr.len⟩ } :=
  C10_input_mutation matI32 matI32 false false false false Dtype.int64 oracleOne
    ⟨SpFormat.csr, 1, 1, Dtype.float32, 1⟩ (by decide) (by decide)
